import Mathlib

/-!
Verification of `tunif.c` from the map646 repository: a shallow embedding of
the tun-interface control-plane code (address-family framing codec, netmask
derivation, route injection, device-path construction and interface-name
handling), with theorems settling the specification's claims about it.

Byte buffers are modelled as `List Nat` with each element a byte value.
The C code is compiled in two variants: platform family A (`__linux__`)
and platform family B (BSD, the `#else` branches); both variants are
embedded, with `_linux` / `_bsd` suffixes.
-/

namespace Tunif

/-! ### Numeric constants from the system headers -/

/-- Constant `AF_INET` (both platform families). -/
def AF_INET : Nat := 2

/-- Constant `AF_INET6` on Linux (platform family A). -/
def AF_INET6_linux : Nat := 10

/-- Constant `AF_INET6` on BSD (platform family B, FreeBSD value). -/
def AF_INET6_bsd : Nat := 28

/-- Constant `AF_LINK` (BSD). -/
def AF_LINK : Nat := 18

/-- Constant `ETH_P_IP`, the IPv4 Ether frame type. -/
def ETH_P_IP : Nat := 0x0800

/-- Constant `ETH_P_IPV6`, the IPv6 Ether frame type. -/
def ETH_P_IPV6 : Nat := 0x86DD

/-- Constant `IFNAMSIZ`. -/
def IFNAMSIZ : Nat := 16

/-- The sentinel value `tun_get_af` initializes `af` with (`uint32_t af = 255`). -/
def AF_UNKNOWN_SENTINEL : Nat := 255

/-! ### Byte-buffer primitives

`setByte l i v` models storing byte `v` at offset `i` of a buffer; out-of-range
stores do not occur in the theorems below (they all carry the C precondition
that the buffer is at least 4 bytes long). `getByte` models a byte load. -/

def setByte (l : List Nat) (i v : Nat) : List Nat := l.set i v

def getByte (l : List Nat) (i : Nat) : Nat := l.getD i 0

/-- Composition of `ntohs`/`htons` at the byte level: a big-endian 16-bit load
from offsets `i, i+1`. -/
def load16be (l : List Nat) (i : Nat) : Nat :=
  getByte l i * 256 + getByte l (i + 1)

/-- Big-endian 16-bit store (`htons`) of `v` at offsets `i, i+1`. -/
def store16be (l : List Nat) (i v : Nat) : List Nat :=
  setByte (setByte l i (v / 256 % 256)) (i + 1) (v % 256)

/-- Load `ntohl`: big-endian 32-bit load from offsets `0..3`. -/
def load32be (l : List Nat) : Nat :=
  ((getByte l 0 * 256 + getByte l 1) * 256 + getByte l 2) * 256 + getByte l 3

/-- Store `htonl`: big-endian 32-bit store of `v` (a `uint32_t`) at offsets `0..3`. -/
def store32be (l : List Nat) (v : Nat) : List Nat :=
  setByte (setByte (setByte (setByte l 0 (v / 2^24 % 256)) 1 (v / 2^16 % 256))
    2 (v / 2^8 % 256)) 3 (v % 256)

/-! ### Address-family framing codec (`tun_get_af`, `tun_set_af`)

Platform family A (`__linux__`): the buffer starts with `struct tun_pi`
(`__u16 flags; __be16 proto`), so `flags` occupies bytes 0..1 and the
network-byte-order `proto` occupies bytes 2..3.
Platform family B (BSD): the buffer starts with a `uint32_t` holding
`htonl(af)`. -/

/-- Function `tun_get_af`, `__linux__` branch: `af` starts as the 255 sentinel, then the
Ether type `ntohs(pi->proto)` is mapped to an address family; unknown Ether
types leave the sentinel (after a `warnx` diagnostic, which does not abort). -/
def tun_get_af_linux (buf : List Nat) : Nat :=
  let ether_type := load16be buf 2
  if ether_type == ETH_P_IP then AF_INET
  else if ether_type == ETH_P_IPV6 then AF_INET6_linux
  else AF_UNKNOWN_SENTINEL

/-- Function `tun_get_af`, BSD branch: `af = ntohl(*(uint32_t *)buf)`, returned with no
validation. -/
def tun_get_af_bsd (buf : List Nat) : Nat :=
  load32be buf

/-- Function `tun_set_af`, `__linux__` branch. Returns the C `int` result paired with
the buffer after the call. On an unsupported family the function returns `-1`
before any store, so the buffer is returned unchanged. On success it stores
`pi->flags = 0` (bytes 0..1) and `pi->proto = htons(ether_type)` (bytes 2..3)
and returns `0`. -/
def tun_set_af_linux (buf : List Nat) (af : Nat) : Int × List Nat :=
  if af = AF_INET then
    (0, store16be (setByte (setByte buf 0 0) 1 0) 2 ETH_P_IP)
  else if af = AF_INET6_linux then
    (0, store16be (setByte (setByte buf 0 0) 1 0) 2 ETH_P_IPV6)
  else
    (-1, buf)

/-- Function `tun_set_af`, BSD branch: `*af_space = htonl(af); return 0;` — every
family value is accepted and stored, there is no validation. -/
def tun_set_af_bsd (buf : List Nat) (af : Nat) : Int × List Nat :=
  (0, store32be buf (af % 2^32))

/-! ### Netmask derivation (`tun_make_netmask`)

The C function writes the mask into the address bytes of a `sockunion` and
also sets `sa_family`/`sa_len`; the claims are about the address bytes, so the
embedding returns those (`max / 8` of them). `assert(prefix_len > 0)` and the
two `errx` exits (unsupported family, `max < prefix_len`) are modelled as
`none`: on those inputs the function aborts the process instead of producing
mask bytes. The embedding is for platform family B, where the function is
reachable (on Linux `tun_route_add` returns before calling it), hence the BSD
`AF_INET6` value. -/

/-- Model of `memset(p, v, n)` restricted to the first `n` bytes of a buffer. -/
def memsetPrefix (l : List Nat) (v n : Nat) : List Nat :=
  l.enum.map fun p => if p.1 < n then v else p.2

/-- Function `tun_make_netmask` (BSD build): address bytes of the produced mask, or
`none` when the function aborts (assertion failure at `prefix_len <= 0`,
`errx` on an unsupported family or on `max < prefix_len`). -/
def tun_make_netmask (af : Nat) (prefix_len : Int) : Option (List Nat) :=
  if prefix_len ≤ 0 then none  -- assert(prefix_len > 0) fails
  else
    let max? : Option Nat :=
      if af = AF_INET then some 32
      else if af = AF_INET6_bsd then some 128
      else none  -- errx: unsupported address family
    match max? with
    | none => none
    | some max =>
      if (max : Int) < prefix_len then none  -- errx: invalid prefix length
      else
        let pl := prefix_len.toNat
        let q := pl >>> 3
        let r := pl &&& 7
        let bytes0 := memsetPrefix (List.replicate (max / 8) 0) 0 (max / 8)
        let bytes1 := if q > 0 then memsetPrefix bytes0 0xff q else bytes0
        let bytes2 := if r > 0 then setByte bytes1 q ((0xff00 >>> r) &&& 0xff)
                      else bytes1
        some bytes2

/-- The mask bytes as the specification words them: the first `p / 8` bytes
are `0xFF`; when `p % 8` is nonzero the next byte is `(0xFF00 >> (p % 8)) &
0xFF`; all remaining bytes are `0x00`. (`n` is the address byte length of the
family.) This definition follows the spec text, for comparison with the
embedding of the source. -/
def maskBytes_spec (n p : Nat) : List Nat :=
  (List.range n).map fun i =>
    if i < p / 8 then 0xff
    else if i = p / 8 ∧ p % 8 ≠ 0 then (0xff00 >>> (p % 8)) &&& 0xff
    else 0

/-! ### Route injection (`tun_route_add`)

Routing constants from `net/route.h` (BSD). -/

def RTF_UP : Nat := 0x1
def RTF_HOST : Nat := 0x4
def RTF_STATIC : Nat := 0x800
def RTA_DST : Nat := 0x1
def RTA_GATEWAY : Nat := 0x2
def RTA_NETMASK : Nat := 0x4
def RTM_ADD : Nat := 0x1
def RTM_VERSION : Nat := 5

/-- One entry of the list produced by `getifaddrs`: the interface name, the
address family of `ifa_addr`, and (when the entry is an `AF_LINK` one) the
`sockaddr_dl` length and bytes that `memcpy` would copy. -/
structure IfAddr where
  ifa_name : String
  family : Nat
  sdl_len : Nat
  sdl_data : List Nat
deriving DecidableEq, Repr

/-- A socket-address block placed in the routing message by `NEXTADDR`. -/
inductive SockAddr where
  /-- Struct `sockaddr_in`: `sin_len`, `sin_family`, the 4 `sin_addr` bytes. -/
  | sin (len family : Nat) (addr : List Nat)
  /-- Struct `sockaddr_in6`: `sin6_len`, `sin6_family`, the 16 `sin6_addr` bytes. -/
  | sin6 (len family : Nat) (addr : List Nat)
  /-- Struct `sockaddr_dl`, copied verbatim from the matching `getifaddrs` entry. -/
  | sdl (len : Nat) (data : List Nat)
deriving DecidableEq, Repr

/-- The routing-update message assembled in `m_rtmsg` and written to the
routing socket. `blocks` lists the address blocks in `NEXTADDR` order
(destination, gateway, netmask). -/
structure RtMsg where
  rtm_type : Nat
  rtm_version : Nat
  rtm_flags : Nat
  rtm_seq : Nat
  rtm_addrs : Nat
  blocks : List SockAddr
deriving DecidableEq, Repr

/-- Observable outcome of one `tun_route_add` call on platform family B. -/
inductive RouteResult where
  /-- Outcome of an early `return` with the given code, before any routing-socket I/O -/
  | ret (code : Int)
  /-- Outcome where an `assert` aborted the process -/
  | assertFailure
  /-- Outcome where `memcpy` read past the end of the caller's destination buffer -/
  | oobRead
  /-- Outcome where `memcpy(&so_gate.sdl, sdlp, sdlp->sdl_len)` dereferenced a NULL `sdlp` -/
  | nullDereference
  /-- Outcome of the `errx` "cannot find a link-layer address" diagnostic path -/
  | errxNoLinkAddr
  /-- Outcome where the message was written to the raw routing socket -/
  | wrote (msg : RtMsg)
deriving DecidableEq, Repr

/-- Whether the call ended with a routing-socket write. -/
def RouteResult.isWrote : RouteResult → Bool
  | .wrote _ => true
  | _ => false

/-- The loop over the `getifaddrs` list: `sdlp` starts NULL and is overwritten
by every entry whose `sa_family` is `AF_LINK` and whose name equals
`tun_if_name`, so the last match (if any) remains. -/
def findLinkLayer (ifaddrs : List IfAddr) (tun_if_name : String) : Option IfAddr :=
  ifaddrs.foldl
    (fun acc ia =>
      if ia.family = AF_LINK ∧ ia.ifa_name = tun_if_name then some ia else acc)
    none

/-- Function `tun_route_add`, BSD branch (on Linux the function is a stub, see
`tun_route_add_linux`). Inputs: the address family, the destination bytes the
caller's `addr` pointer refers to, the prefix length, the `getifaddrs` list,
the current content of the global `tun_if_name`, and the current value of the
`static int seq` counter. Output: the observable outcome and the value of
`seq` after the call.

The `memcpy` of the gateway at line 327 runs before the `sdlp == NULL` check
at line 329, so when no link-layer entry matches, the outcome is a NULL
dereference and the `errx` diagnostic (`RouteResult.errxNoLinkAddr`) is
unreachable. -/
def tun_route_add_bsd (af : Nat) (addr : List Nat) (prefix_len : Int)
    (ifaddrs : List IfAddr) (tun_if_name : String) (seq : Nat) :
    RouteResult × Nat :=
  if prefix_len < 0 then (.assertFailure, seq)  -- assert(prefix_len >= 0)
  else
    let flags0 := RTF_UP ||| RTF_HOST ||| RTF_STATIC
    -- switch (af): build destination (and netmask when prefix < max)
    let step1 : Option (Option (SockAddr × Nat × Nat × Option SockAddr)) :=
      if af = AF_INET then
        if addr.length < 4 then none  -- memcpy overreads the caller's buffer
        else
          let dst := SockAddr.sin 16 AF_INET (addr.take 4)
          if prefix_len < 32 then
            match tun_make_netmask AF_INET prefix_len with
            | none => some none  -- tun_make_netmask aborted
            | some mb =>
              some (some (dst, RTA_DST ||| RTA_NETMASK,
                flags0 &&& (0xFFFFFFFF ^^^ RTF_HOST), some (.sin 16 AF_INET mb)))
          else some (some (dst, RTA_DST, flags0, none))
      else if af = AF_INET6_bsd then
        if addr.length < 16 then none
        else
          let dst := SockAddr.sin6 28 AF_INET6_bsd (addr.take 16)
          if prefix_len < 128 then
            match tun_make_netmask AF_INET6_bsd prefix_len with
            | none => some none
            | some mb =>
              some (some (dst, RTA_DST ||| RTA_NETMASK,
                flags0 &&& (0xFFFFFFFF ^^^ RTF_HOST), some (.sin6 28 AF_INET6_bsd mb)))
          else some (some (dst, RTA_DST, flags0, none))
      else none
    if af ≠ AF_INET ∧ af ≠ AF_INET6_bsd then
      (.ret (-1), seq)  -- default: warnx; return (-1)
    else
      match step1 with
      | none => (.oobRead, seq)
      | some none => (.assertFailure, seq)
      | some (some (dst, addrs1, flags1, mask?)) =>
        match findLinkLayer ifaddrs tun_if_name with
        | none => (.nullDereference, seq)  -- memcpy from NULL sdlp (line 327)
        | some ia =>
          let gate := SockAddr.sdl ia.sdl_len ia.sdl_data
          let addrs2 := addrs1 ||| RTA_GATEWAY
          let seq' := seq + 1  -- rtm_seq = ++seq
          let blocks := [dst, gate] ++ (match mask? with
            | some m => [m]
            | none => [])
          (.wrote ⟨RTM_ADD, RTM_VERSION, flags1, seq', addrs2, blocks⟩, seq')

/-- Function `tun_route_add`, `__linux__` branch: after the asserts, a documented stub
(`warnx` and `return 0`) — no route manipulation. -/
def tun_route_add_linux (prefix_len : Int) : RouteResult :=
  if prefix_len < 0 then .assertFailure else .ret 0

/-! ### Device-path construction and interface-name flow in `tun_alloc` -/

/-- Model of `strcat(dst, src)` at the level of C-string contents: the content of `dst`
after the call is everything up to the first NUL byte already in `dst`,
followed by `src`'s content. -/
def strcatModel (dst src : List Nat) : List Nat :=
  dst.takeWhile (· ≠ 0) ++ src

/-- The bytes of the string literal `"/dev/"`. -/
def devPrefixBytes : List Nat := [47, 100, 101, 118, 47]

/-- Lines 113–115: `char tun_dev_name[MAXPATHLEN];` is declared without an
initializer, so its content `g` on entry is arbitrary; the code then runs
`strcat(tun_dev_name, "/dev/")` and `strcat(tun_dev_name, ifr.ifr_name)` and
opens the resulting path. -/
def tun_dev_path (g name : List Nat) : List Nat :=
  strcatModel (strcatModel g devPrefixBytes) name

/-- Model of `strncpy(dst, src, n)`: name content truncated to `n` bytes. -/
def strncpyName (src : List Nat) (n : Nat) : List Nat := src.take n

/-- The interface-name flow of `tun_alloc`. The parameter `tun_if_name`
(line 72) shadows the global `tun_if_name` (line 61), so the final
`strncpy(tun_if_name, ifr.ifr_name, IFNAMSIZ)` writes the kernel-assigned
name through the parameter; the global changes only when the caller passed
the global itself as the argument (`argIsGlobal`). Returns (global content
after, argument-buffer content after). -/
def tun_alloc_names (argIsGlobal : Bool) (globalBefore kernelName : List Nat) :
    List Nat × List Nat :=
  let argAfter := strncpyName kernelName IFNAMSIZ
  (if argIsGlobal then argAfter else globalBefore, argAfter)

/-! ### Sequences of route additions (for the sequence-counter claims) -/

/-- A `getifaddrs` entry whose family is `AF_LINK` and whose name matches the
interface name used in the concrete counterexample calls. -/
def goodIfAddr : IfAddr := ⟨"tun0", AF_LINK, 20, [18, 20, 3, 0]⟩

/-- The arguments of one `tun_route_add` call: the address family, the
destination bytes, the prefix length, and the call's environment (the
`getifaddrs` list and the content of the global `tun_if_name`). -/
structure RouteCall where
  af : Nat
  addr : List Nat
  prefix_len : Int
  ifaddrs : List IfAddr
  ifname : String

/-- Sequence numbers of the messages emitted by an arbitrary sequence of
`tun_route_add` calls, starting from counter value `s`: the `static int seq`
counter is threaded through the calls, and calls that end without a
routing-socket write (early return, crash) contribute no entry. -/
def routeSeqTrace : List RouteCall → Nat → List Nat
  | [], _ => []
  | c :: cs, s =>
    match tun_route_add_bsd c.af c.addr c.prefix_len c.ifaddrs c.ifname s with
    | (RouteResult.wrote m, s') => m.rtm_seq :: routeSeqTrace cs s'
    | (_, s') => routeSeqTrace cs s'

/-! ### Helper lemmas shared by the claim theorems -/

/-- Per-call behavior of the sequence counter, for every call whatsoever:
either the call writes a message, and then the message carries `s + 1`
(`rtm_seq = ++seq`) and the counter is left at `s + 1` — incremented exactly
once — or the call ends without a write and the counter is left unchanged. -/
theorem route_add_step_seq (af : Nat) (addr : List Nat) (p : Int) (ia : List IfAddr)
    (nm : String) (s : Nat) :
    (∃ m, tun_route_add_bsd af addr p ia nm s = (RouteResult.wrote m, s + 1) ∧
      m.rtm_seq = s + 1) ∨
    ((tun_route_add_bsd af addr p ia nm s).1.isWrote = false ∧
      (tun_route_add_bsd af addr p ia nm s).2 = s) := by
  simp only [tun_route_add_bsd]
  repeat' split
  all_goals first
    | exact Or.inr ⟨rfl, rfl⟩
    | exact Or.inl ⟨_, rfl, rfl⟩

/-- The emitted sequence numbers of any call sequence starting at counter `s`
form the contiguous run `s+1, s+2, ..., s+k` where `k` is the number of
emitting calls. -/
theorem routeSeqTrace_shape (cs : List RouteCall) : ∀ s : Nat,
    ∃ k, routeSeqTrace cs s = List.range' (s + 1) k := by
  induction cs with
  | nil => exact fun s => ⟨0, rfl⟩
  | cons c cs ih =>
    intro s
    rcases route_add_step_seq c.af c.addr c.prefix_len c.ifaddrs c.ifname s with
      ⟨m, heq, hseq⟩ | ⟨hnw, hs⟩
    · obtain ⟨k, hk⟩ := ih (s + 1)
      refine ⟨k + 1, ?_⟩
      rw [routeSeqTrace, heq]
      simp only [hseq, hk, List.range'_succ]
    · rcases hstep : tun_route_add_bsd c.af c.addr c.prefix_len c.ifaddrs c.ifname s with ⟨r, s2⟩
      rw [hstep] at hnw hs
      simp only at hnw hs
      obtain ⟨k, hk⟩ := ih s
      refine ⟨k, ?_⟩
      rw [routeSeqTrace, hstep]
      cases r <;> simp_all [RouteResult.isWrote]

/-- For IPv4 prefix lengths in `1..32` the netmask bytes produced by the
source match the specification's formula. -/
theorem netmask_formula_v4 (p : Nat) (h1 : 1 ≤ p) (h2 : p ≤ 32) :
    tun_make_netmask AF_INET (p : Int) = some (maskBytes_spec 4 p) := by
  revert h1 h2; revert p; decide

/-- For IPv6 prefix lengths in `1..128` the netmask bytes produced by the
source match the specification's formula. -/
theorem netmask_formula_v6 (p : Nat) (h1 : 1 ≤ p) (h2 : p ≤ 128) :
    tun_make_netmask AF_INET6_bsd (p : Int) = some (maskBytes_spec 16 p) := by
  revert h1 h2; revert p; decide

/-- Encoding IPv4 on Linux: result of `tun_set_af` on a 4-byte-or-longer buffer. -/
theorem set_af_linux_v4_eq (b0 b1 b2 b3 : Nat) (t : List Nat) :
    tun_set_af_linux (b0 :: b1 :: b2 :: b3 :: t) AF_INET = (0, 0 :: 0 :: 8 :: 0 :: t) := by
  simp only [tun_set_af_linux, AF_INET, AF_INET6_linux]
  norm_num
  simp only [store16be, setByte, ETH_P_IP]
  norm_num [List.set]

/-- Encoding IPv6 on Linux: the Ether type 0x86DD lands in bytes 2..3. -/
theorem set_af_linux_v6_eq (b0 b1 b2 b3 : Nat) (t : List Nat) :
    tun_set_af_linux (b0 :: b1 :: b2 :: b3 :: t) AF_INET6_linux = (0, 0 :: 0 :: 134 :: 221 :: t) := by
  simp only [tun_set_af_linux, AF_INET, AF_INET6_linux]
  norm_num
  simp only [store16be, setByte, ETH_P_IPV6]
  norm_num [List.set]

/-- Encoding IPv4 on BSD: the family word 2 in network byte order. -/
theorem set_af_bsd_v4_eq (b0 b1 b2 b3 : Nat) (t : List Nat) :
    tun_set_af_bsd (b0 :: b1 :: b2 :: b3 :: t) AF_INET = (0, 0 :: 0 :: 0 :: 2 :: t) := by
  simp only [tun_set_af_bsd, store32be, setByte, AF_INET]
  norm_num [List.set]

/-- Encoding IPv6 on BSD: the family word 28 in network byte order. -/
theorem set_af_bsd_v6_eq (b0 b1 b2 b3 : Nat) (t : List Nat) :
    tun_set_af_bsd (b0 :: b1 :: b2 :: b3 :: t) AF_INET6_bsd = (0, 0 :: 0 :: 0 :: 28 :: t) := by
  simp only [tun_set_af_bsd, store32be, setByte, AF_INET6_bsd]
  norm_num [List.set]

/-- Decoding the Linux IPv4 header bytes. -/
theorem get_af_linux_v4_eq (t : List Nat) :
    tun_get_af_linux (0 :: 0 :: 8 :: 0 :: t) = AF_INET := by
  simp only [tun_get_af_linux, load16be, getByte, ETH_P_IP, ETH_P_IPV6, AF_INET]
  norm_num

/-- Decoding the Linux IPv6 header bytes. -/
theorem get_af_linux_v6_eq (t : List Nat) :
    tun_get_af_linux (0 :: 0 :: 134 :: 221 :: t) = AF_INET6_linux := by
  simp only [tun_get_af_linux, load16be, getByte, ETH_P_IP, ETH_P_IPV6, AF_INET6_linux]
  norm_num

/-- Decoding the BSD IPv4 header bytes. -/
theorem get_af_bsd_v4_eq (t : List Nat) :
    tun_get_af_bsd (0 :: 0 :: 0 :: 2 :: t) = AF_INET := by
  simp only [tun_get_af_bsd, load32be, getByte, AF_INET]
  norm_num

/-- Decoding the BSD IPv6 header bytes. -/
theorem get_af_bsd_v6_eq (t : List Nat) :
    tun_get_af_bsd (0 :: 0 :: 0 :: 28 :: t) = AF_INET6_bsd := by
  simp only [tun_get_af_bsd, load32be, getByte, AF_INET6_bsd]
  norm_num

/-- When no entry of the `getifaddrs` list is an `AF_LINK` entry with the
interface's name, the loop leaves `sdlp` NULL. -/
theorem findLinkLayer_eq_none (ifaddrs : List IfAddr) (nm : String)
    (h : ∀ ia ∈ ifaddrs, ¬(ia.family = AF_LINK ∧ ia.ifa_name = nm)) :
    findLinkLayer ifaddrs nm = none := by
  unfold findLinkLayer
  induction ifaddrs with
  | nil => rfl
  | cons a t ih =>
    have ha := h a (List.mem_cons_self a t)
    simp only [List.foldl_cons, if_neg ha]
    exact ih (fun ia hia => h ia (List.mem_cons_of_mem a hia))

/-! ### Claim theorems -/

/-- C1: For prefix lengths `1 ≤ p ≤ max` the netmask derivation produces
exactly the bytes the claim describes (first `p/8` bytes `0xFF`, then
`(0xFF00 >> (p % 8)) & 0xFF` when `p % 8 ≠ 0`, then zeros) for both address
families — but at `p = 0` the claim fails on the code: `tun_make_netmask`
asserts `prefix_len > 0` and aborts instead of producing the all-zero mask,
even though its caller `tun_route_add` admits `prefix_len = 0` and calls it. -/
theorem netmask_matches_formula_but_aborts_at_zero :
    (∀ p : Nat, 1 ≤ p → p ≤ 32 →
      tun_make_netmask AF_INET (p : Int) = some (maskBytes_spec 4 p)) ∧
    (∀ p : Nat, 1 ≤ p → p ≤ 128 →
      tun_make_netmask AF_INET6_bsd (p : Int) = some (maskBytes_spec 16 p)) ∧
    tun_make_netmask AF_INET 0 = none ∧ tun_make_netmask AF_INET6_bsd 0 = none :=
  ⟨netmask_formula_v4, netmask_formula_v6, rfl, rfl⟩

/-- Witness for C1 at `p = 24` (IPv4) and `p = 64` (IPv6). -/
theorem netmask_matches_formula_witness :
    tun_make_netmask AF_INET 24 = some (maskBytes_spec 4 24) ∧
    tun_make_netmask AF_INET6_bsd 64 = some (maskBytes_spec 16 64) :=
  ⟨netmask_matches_formula_but_aborts_at_zero.1 24 (by decide) (by decide),
   netmask_matches_formula_but_aborts_at_zero.2.1 64 (by decide) (by decide)⟩

/-- C2: On a buffer of at least the 4-byte minimum header size, decoding
after a successful encode returns the encoded tag, for both supported tags
under both platform conventions (Linux `struct tun_pi` Ether type; BSD
big-endian 32-bit family word). -/
theorem codec_roundtrip (buf : List Nat) (h : 4 ≤ buf.length) :
    ((tun_set_af_linux buf AF_INET).1 = 0 ∧
      tun_get_af_linux (tun_set_af_linux buf AF_INET).2 = AF_INET) ∧
    ((tun_set_af_linux buf AF_INET6_linux).1 = 0 ∧
      tun_get_af_linux (tun_set_af_linux buf AF_INET6_linux).2 = AF_INET6_linux) ∧
    ((tun_set_af_bsd buf AF_INET).1 = 0 ∧
      tun_get_af_bsd (tun_set_af_bsd buf AF_INET).2 = AF_INET) ∧
    ((tun_set_af_bsd buf AF_INET6_bsd).1 = 0 ∧
      tun_get_af_bsd (tun_set_af_bsd buf AF_INET6_bsd).2 = AF_INET6_bsd) := by
  rcases buf with _ | ⟨b0, _ | ⟨b1, _ | ⟨b2, _ | ⟨b3, t⟩⟩⟩⟩ <;>
    simp only [List.length] at h <;> try omega
  rw [set_af_linux_v4_eq, set_af_linux_v6_eq, set_af_bsd_v4_eq, set_af_bsd_v6_eq]
  exact ⟨⟨rfl, get_af_linux_v4_eq t⟩, ⟨rfl, get_af_linux_v6_eq t⟩,
    ⟨rfl, get_af_bsd_v4_eq t⟩, ⟨rfl, get_af_bsd_v6_eq t⟩⟩

/-- Witness for C2 on the all-zero 4-byte buffer. -/
theorem codec_roundtrip_witness :
    tun_get_af_linux (tun_set_af_linux [0, 0, 0, 0] AF_INET).2 = AF_INET ∧
    tun_get_af_bsd (tun_set_af_bsd [0, 0, 0, 0] AF_INET6_bsd).2 = AF_INET6_bsd :=
  ⟨(codec_roundtrip [0, 0, 0, 0] (by decide)).1.2,
   (codec_roundtrip [0, 0, 0, 0] (by decide)).2.2.2.2⟩

/-- C3 counterexample: on platform family B, `tun_set_af` with the
unsupported tag 99 returns 0 (success) and stores the value — it does not
fail, contradicting the claim that encoding fails for tags other than
IPv4/IPv6 on both platform families. -/
theorem set_af_bsd_accepts_any_tag :
    (tun_set_af_bsd [0, 0, 0, 0] 99).1 = 0 ∧
    (tun_set_af_bsd [0, 0, 0, 0] 99).1 ≠ -1 ∧
    (tun_set_af_bsd [0, 0, 0, 0] 99).2 = [0, 0, 0, 99] := by decide

/-- C3 (amended): encoding an unsupported tag fails (returns -1) only on
platform family A; on platform family B every tag is accepted and the call
returns 0. -/
theorem set_af_unsupported_per_platform :
    (∀ buf af, af ≠ AF_INET → af ≠ AF_INET6_linux →
      (tun_set_af_linux buf af).1 = -1) ∧
    (∀ buf af, (tun_set_af_bsd buf af).1 = 0) := by
  constructor
  · intro buf af h4 h6
    simp [tun_set_af_linux, h4, h6]
  · intro buf af
    rfl

/-- Witness for C3 (amended) at tag 99. -/
theorem set_af_unsupported_witness :
    (tun_set_af_linux [0, 0, 0, 0] 99).1 = -1 ∧
    (tun_set_af_bsd [0, 0, 0, 0] 99).1 = 0 :=
  ⟨set_af_unsupported_per_platform.1 [0, 0, 0, 0] 99 (by decide) (by decide),
   set_af_unsupported_per_platform.2 [0, 0, 0, 0] 99⟩

/-- C4 counterexample: on platform family B, a header encoding the
unrecognized family value 7 decodes to 7 itself, not to the 255 sentinel —
`tun_get_af` performs no validation there, contradicting the claim that an
unrecognized family yields the sentinel on both platform families. -/
theorem get_af_bsd_no_sentinel :
    tun_get_af_bsd [0, 0, 0, 7] = 7 ∧
    tun_get_af_bsd [0, 0, 0, 7] ≠ AF_UNKNOWN_SENTINEL := by decide

/-- C4 (amended): on platform family A an unrecognized Ether type yields the
255 sentinel (after a non-fatal diagnostic); on platform family B the decoded
32-bit value is returned verbatim, with no sentinel and no check. -/
theorem get_af_unknown_per_platform :
    (∀ buf, load16be buf 2 ≠ ETH_P_IP → load16be buf 2 ≠ ETH_P_IPV6 →
      tun_get_af_linux buf = AF_UNKNOWN_SENTINEL) ∧
    (∀ buf, tun_get_af_bsd buf = load32be buf) := by
  constructor
  · intro buf hip hip6
    simp [tun_get_af_linux, hip, hip6]
  · intro buf
    rfl

/-- Witness for C4 (amended) on a header whose Ether type field is zero. -/
theorem get_af_unknown_witness :
    tun_get_af_linux [0, 0, 0, 0] = AF_UNKNOWN_SENTINEL ∧
    tun_get_af_bsd [0, 0, 0, 0] = load32be [0, 0, 0, 0] :=
  ⟨get_af_unknown_per_platform.1 [0, 0, 0, 0] (by decide) (by decide),
   get_af_unknown_per_platform.2 [0, 0, 0, 0]⟩

/-- C5: When the `getifaddrs` enumeration holds no `AF_LINK` entry matching
the interface name, `tun_route_add` dereferences the NULL `sdlp` in the
gateway `memcpy` (line 327) — which precedes the `sdlp == NULL` check (line
329) — so the process crashes before the `errx` report naming the interface
can be produced; the `errx` diagnostic path is not the outcome. -/
theorem route_add_missing_link_null_deref (addr : List Nat) (p : Nat)
    (ifaddrs : List IfAddr) (nm : String) (s : Nat)
    (hno : ∀ ia ∈ ifaddrs, ¬(ia.family = AF_LINK ∧ ia.ifa_name = nm))
    (hlen : 4 ≤ addr.length) (hp1 : 1 ≤ p) (hp2 : p ≤ 32) :
    (tun_route_add_bsd AF_INET addr (p : Int) ifaddrs nm s).1
      = RouteResult.nullDereference ∧
    (tun_route_add_bsd AF_INET addr (p : Int) ifaddrs nm s).1
      ≠ RouteResult.errxNoLinkAddr := by
  have hf := findLinkLayer_eq_none ifaddrs nm hno
  have hlt : ¬ addr.length < 4 := by omega
  have hp0 : ¬ (p : Int) < 0 := by omega
  refine ⟨?_, ?_⟩ <;> by_cases hsplit : (p : Int) < 32
  · have hm : tun_make_netmask 2 (p : Int) = some (maskBytes_spec 4 p) :=
      netmask_formula_v4 p hp1 hp2
    simp [tun_route_add_bsd, AF_INET, AF_INET6_bsd, hlt, hp0, hsplit, hm, hf]
  · simp [tun_route_add_bsd, AF_INET, AF_INET6_bsd, hlt, hp0, hsplit, hf]
  · have hm : tun_make_netmask 2 (p : Int) = some (maskBytes_spec 4 p) :=
      netmask_formula_v4 p hp1 hp2
    simp [tun_route_add_bsd, AF_INET, AF_INET6_bsd, hlt, hp0, hsplit, hm, hf]
  · simp [tun_route_add_bsd, AF_INET, AF_INET6_bsd, hlt, hp0, hsplit, hf]

/-- Witness for C5: an empty interface list. -/
theorem route_add_missing_link_witness :
    (tun_route_add_bsd AF_INET [192, 0, 2, 1] 32 [] "tun0" 0).1
      = RouteResult.nullDereference :=
  (route_add_missing_link_null_deref [192, 0, 2, 1] 32 [] "tun0" 0
    (by simp) (by decide) (by decide) (by decide)).1

/-- C6 counterexample: a call with a 16-byte destination buffer and family
`AF_INET` (a mismatched length: 16 ≠ 4) is not rejected — the call proceeds
all the way to the routing-socket write. -/
theorem route_add_mismatched_length_not_rejected :
    (tun_route_add_bsd AF_INET [192, 0, 2, 1, 9, 9, 9, 9, 9, 9, 9, 9, 9, 9, 9, 9]
      32 [goodIfAddr] "tun0" 0).1.isWrote = true := by decide

/-- C6 (amended): `tun_route_add` receives no destination-address length and
performs no length check; its behavior depends only on the first 4 (IPv4) or
16 (IPv6) bytes of the destination buffer, so a longer, mismatched buffer is
processed exactly like a matched-length one (no rejection, the routing-socket
write happens), and a shorter buffer is read out of bounds rather than
rejected. -/
theorem route_add_ignores_addr_length_tail (addr : List Nat) (p : Int)
    (ia : List IfAddr) (nm : String) (s : Nat) :
    tun_route_add_bsd AF_INET addr p ia nm s
      = tun_route_add_bsd AF_INET (addr.take 4) p ia nm s ∧
    tun_route_add_bsd AF_INET6_bsd addr p ia nm s
      = tun_route_add_bsd AF_INET6_bsd (addr.take 16) p ia nm s := by
  constructor
  · by_cases h : addr.length < 4
    · have h2 : (addr.take 4).length < 4 := by simp [List.length_take]; omega
      simp [tun_route_add_bsd, h, h2]
    · have h2 : ¬ (addr.take 4).length < 4 := by simp [List.length_take]; omega
      have h3 : (addr.take 4).take 4 = addr.take 4 := by simp [List.take_take]
      simp [tun_route_add_bsd, h, h2, h3]
  · by_cases h : addr.length < 16
    · have h2 : (addr.take 16).length < 16 := by simp [List.length_take]; omega
      simp [tun_route_add_bsd, AF_INET, AF_INET6_bsd, h, h2]
    · have h2 : ¬ (addr.take 16).length < 16 := by simp [List.length_take]; omega
      have h3 : (addr.take 16).take 16 = addr.take 16 := by simp [List.take_take]
      simp [tun_route_add_bsd, AF_INET, AF_INET6_bsd, h, h2, h3]

/-- C7: the device path is built by `strcat` onto the uninitialized stack
buffer `tun_dev_name`, so with entry garbage `[88]` (an `X` byte before the
first NUL) and kernel name `tun0` the opened path is `X/dev/tun0`, not the
claimed exact `/dev/` + name. -/
theorem dev_path_keeps_garbage_prefix :
    tun_dev_path [88, 0] [116, 117, 110, 48]
      = [88, 47, 100, 101, 118, 47, 116, 117, 110, 48] ∧
    tun_dev_path [88, 0] [116, 117, 110, 48]
      ≠ devPrefixBytes ++ [116, 117, 110, 48] := by decide

/-- C8 counterexample: a successful `tun_alloc` whose argument is a buffer
other than the exported global leaves the global unchanged (here: still
all-zero), differing from the kernel-assigned name it wrote to the argument
buffer — so the global does not contain the kernel-assigned name after every
successful Create. -/
theorem alloc_global_not_always_written :
    (tun_alloc_names false (List.replicate IFNAMSIZ 0) [116, 117, 110, 48]).1
      = List.replicate IFNAMSIZ 0 ∧
    (tun_alloc_names false (List.replicate IFNAMSIZ 0) [116, 117, 110, 48]).1
      ≠ (tun_alloc_names false (List.replicate IFNAMSIZ 0) [116, 117, 110, 48]).2 := by
  decide

/-- C8 (amended): `tun_alloc` writes the kernel-assigned name (truncated to
`IFNAMSIZ`) through its pointer parameter, which shadows the exported global
`tun_if_name`; the global is updated only when the caller passes the global
itself as the argument, and in that case it holds the kernel-assigned name
after the call. -/
theorem alloc_name_flow (g k : List Nat) :
    tun_alloc_names true g k = (strncpyName k IFNAMSIZ, strncpyName k IFNAMSIZ) ∧
    (tun_alloc_names false g k).1 = g ∧
    (tun_alloc_names false g k).2 = strncpyName k IFNAMSIZ :=
  ⟨rfl, rfl, rfl⟩

/-- C9: across every sequence of `tun_route_add` calls within one process —
arbitrary families, destination buffers, prefix lengths and environments,
whether or not each call emits a message — the emitted messages, starting
from the initial counter value 0, carry exactly the sequence numbers
`1, 2, ..., k` (`k` the number of emitting calls): the process-wide counter
starts at zero and is incremented once per message, so sequence numbers are
strictly increasing (each strictly greater than every earlier one) and
unique per message within the process lifetime. -/
theorem route_seq_monotone (cs : List RouteCall) :
    routeSeqTrace cs 0 = List.range' 1 (routeSeqTrace cs 0).length ∧
    (routeSeqTrace cs 0).Pairwise (· < ·) ∧
    (routeSeqTrace cs 0).Nodup := by
  obtain ⟨k, hk⟩ := routeSeqTrace_shape cs 0
  have hlen : (routeSeqTrace cs 0).length = k := by rw [hk, List.length_range']
  refine ⟨?_, ?_, ?_⟩
  · rw [hlen, hk]
  · rw [hk]; exact List.pairwise_lt_range' 1 k
  · rw [hk]; exact (List.pairwise_lt_range' 1 k).imp (fun h => Nat.ne_of_lt h)

/-- C10: on platform family A, `tun_set_af` called with a tag other than
`AF_INET`/`AF_INET6` returns -1 and leaves the buffer exactly as it was — the
error path performs no store. -/
theorem set_af_linux_error_preserves_buffer (buf : List Nat) (af : Nat)
    (h4 : af ≠ AF_INET) (h6 : af ≠ AF_INET6_linux) :
    tun_set_af_linux buf af = (-1, buf) := by
  simp [tun_set_af_linux, h4, h6]

/-- Witness for C10 at tag 99 on a 4-byte buffer. -/
theorem set_af_linux_error_witness :
    tun_set_af_linux [1, 2, 3, 4] 99 = (-1, [1, 2, 3, 4]) :=
  set_af_linux_error_preserves_buffer [1, 2, 3, 4] 99 (by decide) (by decide)

end Tunif
